import Mathlib

/-!
Verification development for the `pkg/java` JNI bridge of GlueSQL
(junghoon-vans/gluesql).  The bridge code lives in
`src/pkg/java/src/{lib,payload,callback,storages,error}.rs` and is embedded
shallowly below.  The wrapped engine (`parse`, `translate`,
`execute`, `Payload`, `Value` from gluesql_core) and the storage crates are external
collaborators that are not part of the bridge sources; where the claims
need them they are modelled from the specification, and each such definition
says so in its doc comment.

Rust panics (`unwrap` on `Err`/`None`) are modelled by `Option`: a function
that may panic returns `none` exactly on the panicking executions.
-/

namespace GlueJava

/-- Model of `serde_json::Value` (the serialized-form tree).
Exact text formatting is outside the embedded contract (the spec excludes
"JSON result serialization formatting details beyond their shape"). -/
inductive Json where
  | null : Json
  | bool (b : Bool) : Json
  | num (n : Int) : Json
  | str (s : String) : Json
  | arr (xs : List Json) : Json
  | obj (fields : List (String × Json)) : Json
deriving Inhabited

mutual

/-- Compact rendering of a `Json` tree to text, standing in for
the output shape of `serde_json::to_string_pretty` (whitespace differences are
out of scope per the spec). -/
def renderJson : Json → String
  | Json.null => "null"
  | Json.bool true => "true"
  | Json.bool false => "false"
  | Json.num n => toString n
  | Json.str s => "\"" ++ s ++ "\""
  | Json.arr xs => "[" ++ renderArr xs ++ "]"
  | Json.obj fs => "\x7b" ++ renderObj fs ++ "\x7d"

/-- Renders array elements, comma separated. -/
def renderArr : List Json → String
  | [] => ""
  | [x] => renderJson x
  | x :: y :: xs => renderJson x ++ "," ++ renderArr (y :: xs)

/-- Renders object fields, comma separated. -/
def renderObj : List (String × Json) → String
  | [] => ""
  | [(k, v)] => "\"" ++ k ++ "\":" ++ renderJson v
  | (k, v) :: f :: fs => "\"" ++ k ++ "\":" ++ renderJson v ++ "," ++ renderObj (f :: fs)

end

/-- Modelled from the spec: a `gluesql_core::data::Value` as seen by the
Result Projector.  The spec only requires that some values convert to the
serialized form and some cannot be represented ("if a value cannot be
represented" the conversion fails); a representable value carries its
serialized image, an unrepresentable one carries an arbitrary tag. -/
inductive SqlValue where
  | representable (j : Json) : SqlValue
  | unrepresentable (tag : Nat) : SqlValue

/-- Modelled from the spec: `serde_json::Value::try_from(value)` — the
fallible value-to-serialized-form conversion used in the `Select` arm of
`convert_payload`.  `none` means the conversion returns `Err`. -/
def tryFromValue : SqlValue → Option Json
  | SqlValue.representable j => some j
  | SqlValue.unrepresentable _ => none

/-- Modelled from the spec: `gluesql_core::prelude::Payload`, the closed set
of per-statement result shapes consumed by `convert_payload`.  The
constructor set is exactly the set of match arms in
`src/pkg/java/src/payload.rs` (lines 15–128).  Fields whose serialization is
infallible (`Serialize` data such as column listings, select-map rows and
variable payloads) are carried as their serialized `Json` image. -/
inductive Payload where
  | create : Payload
  | insert (rows : Nat) : Payload
  | update (rows : Nat) : Payload
  | delete (rows : Nat) : Payload
  | select (labels : List String) (rows : List (List SqlValue)) : Payload
  | dropTable (count : Nat) : Payload
  | alterTable : Payload
  | createIndex : Payload
  | dropIndex : Payload
  | showColumns (columns : Json) : Payload
  | selectMap (rows : Json) : Payload
  | dropFunction : Payload
  | showVariable (v : Json) : Payload
  | startTransaction : Payload
  | commit : Payload
  | rollback : Payload

/-- `struct JavaPayload { payload: Payload }` from payload.rs. -/
structure JavaPayload where
  payload : Payload

/-- One `Select` row: `labels.iter().zip(values).map(|(l, v)| (l, try_from(v).unwrap()))`
from payload.rs lines 44–52.  The zip stops at the shorter list; `none`
models the `unwrap` panic when a value cannot be converted. -/
def convertRow : List String → List SqlValue → Option (List (String × Json))
  | l :: ls, v :: vs =>
    match tryFromValue v with
    | none => none
    | some j => (convertRow ls vs).map (fun r => (l, j) :: r)
  | [], _ => some []
  | _ :: _, [] => some []

/-- All `Select` rows: `rows.into_iter().map(|values| ...Object(row)).collect()`
from payload.rs lines 41–55, propagating the `unwrap` panic. -/
def convertSelectRows (labels : List String) : List (List SqlValue) → Option (List Json)
  | [] => some []
  | row :: rest =>
    match convertRow labels row with
    | none => none
    | some r => (convertSelectRows labels rest).map (fun js => Json.obj r :: js)

/-- The body of the `match java_payload.payload` in `convert_payload`
(payload.rs lines 15–129): the tagged record pushed for one payload.
`none` models the `unwrap` panic in the `Select` arm. -/
def payloadToJson : Payload → Option Json
  | Payload.create =>
    some (Json.obj [("type", Json.str "Create"), ("result", Json.str "Success")])
  | Payload.insert rows =>
    some (Json.obj [("type", Json.str "Insert"), ("inserted_rows", Json.num rows)])
  | Payload.update rows =>
    some (Json.obj [("type", Json.str "Update"), ("updated_rows", Json.num rows)])
  | Payload.delete rows =>
    some (Json.obj [("type", Json.str "Delete"), ("deleted_rows", Json.num rows)])
  | Payload.select labels rows =>
    (convertSelectRows labels rows).map (fun rs =>
      Json.obj [("type", Json.str "Select"),
                ("labels", Json.arr (labels.map Json.str)),
                ("rows", Json.arr rs)])
  | Payload.dropTable count =>
    some (Json.obj [("type", Json.str "Drop"), ("dropped_tables", Json.num count)])
  | Payload.alterTable =>
    some (Json.obj [("type", Json.str "AlterTable"), ("result", Json.str "Success")])
  | Payload.createIndex =>
    some (Json.obj [("type", Json.str "CreateIndex"), ("result", Json.str "Success")])
  | Payload.dropIndex =>
    some (Json.obj [("type", Json.str "DropIndex"), ("result", Json.str "Success")])
  | Payload.showColumns columns =>
    some (Json.obj [("type", Json.str "ShowColumns"), ("columns", columns)])
  | Payload.selectMap rows =>
    some (Json.obj [("type", Json.str "SelectMap"), ("rows", rows)])
  | Payload.dropFunction =>
    some (Json.obj [("type", Json.str "DropFunction"), ("result", Json.str "Success")])
  | Payload.showVariable v =>
    some (Json.obj [("type", Json.str "ShowVariable"), ("variable", v)])
  | Payload.startTransaction =>
    some (Json.obj [("type", Json.str "StartTransaction"), ("result", Json.str "Success")])
  | Payload.commit =>
    some (Json.obj [("type", Json.str "Commit"), ("result", Json.str "Success")])
  | Payload.rollback =>
    some (Json.obj [("type", Json.str "Rollback"), ("result", Json.str "Success")])

/-- The accumulation loop of `convert_payload` (payload.rs lines 12–130):
one record per payload, in order; `none` models a panic inside the loop. -/
def convertResults : List JavaPayload → Option (List Json)
  | [] => some []
  | p :: rest =>
    match payloadToJson p.payload with
    | none => none
    | some j => (convertResults rest).map (fun js => j :: js)

/-- `serde_json::to_string_pretty(&results)` (payload.rs line 132).  For
`serde_json::Value` trees this serialization is infallible, so the `Err`
branch of the Rust `Result` is never taken; it is kept in the type to match
the source signature `Result<String, serde_json::Error>`. -/
def to_string_pretty (j : Json) : Except String String :=
  Except.ok (renderJson j)

/-- `convert_payload` (payload.rs lines 11–133): the Result Projector.
Outer `Option` models the possible `unwrap` panic; the inner `Except` is the
source signature `Result<String, serde_json::Error>`. -/
def convert_payload (payloads : List JavaPayload) : Option (Except String String) :=
  (convertResults payloads).map (fun rs => to_string_pretty (Json.arr rs))

/-- Observer: the `"type"` field of a record, when it is a string. -/
def typeTag (j : Json) : Option String :=
  match j with
  | Json.obj fs =>
    match fs.lookup "type" with
    | some (Json.str t) => some t
    | _ => none
  | _ => none

/-- The per-shape tag actually emitted by `convert_payload` (note
`Payload::DropTable` is tagged `"Drop"` in payload.rs line 65). -/
def shapeTag : Payload → String
  | Payload.create => "Create"
  | Payload.insert _ => "Insert"
  | Payload.update _ => "Update"
  | Payload.delete _ => "Delete"
  | Payload.select _ _ => "Select"
  | Payload.dropTable _ => "Drop"
  | Payload.alterTable => "AlterTable"
  | Payload.createIndex => "CreateIndex"
  | Payload.dropIndex => "DropIndex"
  | Payload.showColumns _ => "ShowColumns"
  | Payload.selectMap _ => "SelectMap"
  | Payload.dropFunction => "DropFunction"
  | Payload.showVariable _ => "ShowVariable"
  | Payload.startTransaction => "StartTransaction"
  | Payload.commit => "Commit"
  | Payload.rollback => "Rollback"

/-- Constructor index of a payload shape (which of the 16 match arms it hits). -/
def ctorIdx : Payload → Nat
  | Payload.create => 0
  | Payload.insert _ => 1
  | Payload.update _ => 2
  | Payload.delete _ => 3
  | Payload.select _ _ => 4
  | Payload.dropTable _ => 5
  | Payload.alterTable => 6
  | Payload.createIndex => 7
  | Payload.dropIndex => 8
  | Payload.showColumns _ => 9
  | Payload.selectMap _ => 10
  | Payload.dropFunction => 11
  | Payload.showVariable _ => 12
  | Payload.startTransaction => 13
  | Payload.commit => 14
  | Payload.rollback => 15

/-- The tag vocabulary emitted by `convert_payload`, one entry per match
arm, in source order. -/
def tagVocabulary : List String :=
  ["Create", "Insert", "Update", "Delete", "Select", "Drop", "AlterTable",
   "CreateIndex", "DropIndex", "ShowColumns", "SelectMap", "DropFunction",
   "ShowVariable", "StartTransaction", "Commit", "Rollback"]

/-- A payload whose every zipped `Select` value converts to the serialized
form (the condition under which `convert_payload` does not panic). -/
def payloadConvertible : Payload → Bool
  | Payload.select labels rows =>
    rows.all (fun row => (labels.zip row).all (fun lv => (tryFromValue lv.2).isSome))
  | _ => true

/-- `struct JavaGlueSQLError { message: String }` from error.rs. -/
structure JavaGlueSQLError where
  message : String
deriving DecidableEq

/-- The `JavaStorageEngine` enum exactly as declared in storages.rs
(lines 74–79): four variants — `Memory`, `Json`, `Sled`, `SharedMemory` —
and no `Redb` variant.  The wrapped backend newtypes are abstracted as type
parameters. -/
inductive JavaStorageEngineDecl (Mem Jsn Sld Shm : Type) where
  | memory (s : Mem) : JavaStorageEngineDecl Mem Jsn Sld Shm
  | json (s : Jsn) : JavaStorageEngineDecl Mem Jsn Sld Shm
  | sled (s : Sld) : JavaStorageEngineDecl Mem Jsn Sld Shm
  | sharedMemory (s : Shm) : JavaStorageEngineDecl Mem Jsn Sld Shm

/-- The variant name of a `JavaStorageEngineDecl` value. -/
def declKindName : JavaStorageEngineDecl Mem Jsn Sld Shm → String
  | JavaStorageEngineDecl.memory _ => "Memory"
  | JavaStorageEngineDecl.json _ => "Json"
  | JavaStorageEngineDecl.sled _ => "Sled"
  | JavaStorageEngineDecl.sharedMemory _ => "SharedMemory"

/-- The variant names declared by storages.rs lines 74–79, in source order. -/
def declKindNames : List String :=
  ["Memory", "Json", "Sled", "SharedMemory"]

/-- The arms of the dispatch `match storage` in `JavaGlue::query`
(lib.rs lines 62–68), in source order.  Note it has a fifth arm
`JavaStorageEngine::Redb(s)` that the enum declaration in storages.rs
does not provide (lib.rs also imports `JavaRedbStorage` from storages,
which storages.rs does not define). -/
def queryDispatchArms : List String :=
  ["Memory", "Json", "Sled", "SharedMemory", "Redb"]

/-- Modelled from the spec: the `StorageEngine` union as used by the
Execution Core in lib.rs — a closed tagged union over the five backend
kinds {Memory, Json, Sled, SharedMemory, Redb} (§3 of the spec; the
dispatch match of lib.rs lines 62–68 has exactly these five arms, while the
stale enum declaration in storages.rs lacks `Redb`).  Backend states are
abstracted as type parameters. -/
inductive JavaStorageEngine (Mem Jsn Sld Shm Rdb : Type) where
  | memory (s : Mem) : JavaStorageEngine Mem Jsn Sld Shm Rdb
  | json (s : Jsn) : JavaStorageEngine Mem Jsn Sld Shm Rdb
  | sled (s : Sld) : JavaStorageEngine Mem Jsn Sld Shm Rdb
  | sharedMemory (s : Shm) : JavaStorageEngine Mem Jsn Sld Shm Rdb
  | redb (s : Rdb) : JavaStorageEngine Mem Jsn Sld Shm Rdb

/-- The variant name of an engine value (which dispatch arm it selects). -/
def engineKindName : JavaStorageEngine Mem Jsn Sld Shm Rdb → String
  | JavaStorageEngine.memory _ => "Memory"
  | JavaStorageEngine.json _ => "Json"
  | JavaStorageEngine.sled _ => "Sled"
  | JavaStorageEngine.sharedMemory _ => "SharedMemory"
  | JavaStorageEngine.redb _ => "Redb"

/-- Modelled from the spec: the opaque collaborators of the Execution Core
— `gluesql_core::prelude::{parse, translate, execute}` and the per-backend
storages — which live outside the bridge sources.  `parse` turns text
into an ordered list of queries or an error; `translate` turns one query
into an executable statement or an error; each `exec*` runs one statement
against one backend state, returning the possibly mutated state together
with `Ok(payload)` or an error message (mutation may survive an error,
matching `execute(&mut storage, ..)`). -/
structure GlueLib (Q S Mem Jsn Sld Shm Rdb : Type) where
  parseFn : String → Except String (List Q)
  translateFn : Q → Except String S
  execMemory : S → Mem → Except String Payload × Mem
  execJson : S → Jsn → Except String Payload × Jsn
  execSled : S → Sld → Except String Payload × Sld
  execSharedMemory : S → Shm → Except String Payload × Shm
  execRedb : S → Rdb → Except String Payload × Rdb

/-- The state behind one `JavaGlue` instance: the `Arc<RwLock<JavaStorageEngine>>`
contents plus whether the `RwLock` is poisoned (a thread panicked while
holding it), which decides whether `write()` returns `Ok` or `Err`. -/
structure JavaGlue (Mem Jsn Sld Shm Rdb : Type) where
  storage : JavaStorageEngine Mem Jsn Sld Shm Rdb
  poisoned : Bool

/-- Observable events of one `JavaGlue::query` run, used to state the
locking discipline: parsing, per-statement translation, write-lock
acquisition and release, per-statement execution, and serialization. -/
inductive Event where
  | parse : Event
  | translate (k : Nat) : Event
  | acquire : Event
  | exec (k : Nat) : Event
  | release : Event
  | serialize : Event
deriving DecidableEq

/-- The dispatch `match storage { ... }` of `JavaGlue::query`
(lib.rs lines 62–68) together with the `execute!` macro (lines 32–38):
runs the statement on the backend of the active variant, maps the error to
`JavaGlueSQLError` via its message, and leaves the variant kind unchanged. -/
def dispatchExecute (lib : GlueLib Q S Mem Jsn Sld Shm Rdb) (stmt : S) :
    JavaStorageEngine Mem Jsn Sld Shm Rdb →
    Except JavaGlueSQLError Payload × JavaStorageEngine Mem Jsn Sld Shm Rdb
  | JavaStorageEngine.memory s =>
    let r := lib.execMemory stmt s
    (r.1.mapError JavaGlueSQLError.mk, JavaStorageEngine.memory r.2)
  | JavaStorageEngine.json s =>
    let r := lib.execJson stmt s
    (r.1.mapError JavaGlueSQLError.mk, JavaStorageEngine.json r.2)
  | JavaStorageEngine.sled s =>
    let r := lib.execSled stmt s
    (r.1.mapError JavaGlueSQLError.mk, JavaStorageEngine.sled r.2)
  | JavaStorageEngine.sharedMemory s =>
    let r := lib.execSharedMemory stmt s
    (r.1.mapError JavaGlueSQLError.mk, JavaStorageEngine.sharedMemory r.2)
  | JavaStorageEngine.redb s =>
    let r := lib.execRedb stmt s
    (r.1.mapError JavaGlueSQLError.mk, JavaStorageEngine.redb r.2)

/-- The `for query in queries.iter()` loop of `JavaGlue::query`
(lib.rs lines 55–77), carrying the statement index `k` for the trace:
translate the query (early `Err` return on failure), take the write lock
(`self.storage.write().unwrap()` — `none` models the panic when the lock is
poisoned), execute on the dispatched variant, drop the guard, then either
push the payload and continue or return the error. -/
def queryLoop (lib : GlueLib Q S Mem Jsn Sld Shm Rdb) :
    Nat → List Q → JavaGlue Mem Jsn Sld Shm Rdb →
    Option (Except JavaGlueSQLError (List Payload)) × JavaGlue Mem Jsn Sld Shm Rdb × List Event
  | _, [], g => (some (Except.ok []), g, [])
  | k, q :: rest, g =>
    match lib.translateFn q with
    | Except.error e => (some (Except.error (JavaGlueSQLError.mk e)), g, [Event.translate k])
    | Except.ok stmt =>
      if g.poisoned then
        (none, g, [Event.translate k])
      else
        let r := dispatchExecute lib stmt g.storage
        let g' : JavaGlue Mem Jsn Sld Shm Rdb := { storage := r.2, poisoned := g.poisoned }
        match r.1 with
        | Except.error e =>
          (some (Except.error e), g',
            [Event.translate k, Event.acquire, Event.exec k, Event.release])
        | Except.ok p =>
          let next := queryLoop lib (k + 1) rest g'
          let res :=
            match next.1 with
            | none => none
            | some (Except.error e) => some (Except.error e)
            | some (Except.ok ps) => some (Except.ok (p :: ps))
          (res, next.2.1,
            [Event.translate k, Event.acquire, Event.exec k, Event.release] ++ next.2.2)

/-- `JavaGlue::query` (lib.rs lines 49–81): parse the text, run the
per-statement loop, then serialize the collected payloads through the
Result Projector (`convert`, i.e. `convert_payload` modulo the `JavaPayload`
newtype).  Returns the call outcome (`none` = panic), the instance state
after the call, and the event trace. -/
def query (lib : GlueLib Q S Mem Jsn Sld Shm Rdb)
    (g : JavaGlue Mem Jsn Sld Shm Rdb) (sql : String) :
    Option (Except JavaGlueSQLError String) × JavaGlue Mem Jsn Sld Shm Rdb × List Event :=
  match lib.parseFn sql with
  | Except.error e => (some (Except.error (JavaGlueSQLError.mk e)), g, [Event.parse])
  | Except.ok queries =>
    let run := queryLoop lib 0 queries g
    match run.1 with
    | none => (none, run.2.1, Event.parse :: run.2.2)
    | some (Except.error e) => (some (Except.error e), run.2.1, Event.parse :: run.2.2)
    | some (Except.ok payloads) =>
      let ser := convert_payload (payloads.map JavaPayload.mk)
      let res :=
        match ser with
        | none => none
        | some (Except.ok s) => some (Except.ok s)
        | some (Except.error e) => some (Except.error (JavaGlueSQLError.mk e))
      (res, run.2.1, (Event.parse :: run.2.2) ++ [Event.serialize])

/-- The trace emitted for one successfully executed statement `k`. -/
def stmtEvents (k : Nat) : List Event :=
  [Event.translate k, Event.acquire, Event.exec k, Event.release]

/-- The trace of `n` successfully executed statements starting at index `k`. -/
def batchEvents : Nat → Nat → List Event
  | _, 0 => []
  | k, n + 1 => stmtEvents k ++ batchEvents (k + 1) n

/-- Lock-discipline checker: scanning the trace with the current lock depth,
parsing/translation/serialization must happen with the lock not held,
every statement execution must happen with the lock held, the exclusive
lock is never acquired twice without an intervening release, and the lock
is free again at the end of the call. -/
def lockCheck : Nat → List Event → Bool
  | d, [] => d == 0
  | d, Event.parse :: rest => d == 0 && lockCheck d rest
  | d, Event.translate _ :: rest => d == 0 && lockCheck d rest
  | d, Event.serialize :: rest => d == 0 && lockCheck d rest
  | d, Event.acquire :: rest => d == 0 && lockCheck (d + 1) rest
  | d, Event.exec _ :: rest => d == 1 && lockCheck d rest
  | d, Event.release :: rest => d == 1 && lockCheck (d - 1) rest

/-- A trace observes the per-statement locking discipline. -/
def lockDiscipline (tr : List Event) : Bool :=
  lockCheck 0 tr

/-- The data captured per async call (callback.rs lines 8–11) together with
the behaviour of the JNI environment on this delivery: whether
`jvm.attach_current_thread()` succeeds, and which strings
`env.new_string(..)` can materialize. -/
structure CallbackData where
  attachOk : Bool
  newStringOk : String → Bool

/-- Which of the two sink entry points were invoked during one delivery. -/
structure Fired where
  onSuccess : Bool
  onError : Bool
deriving DecidableEq

/-- `call_error_callback` (callback.rs lines 40–49): invokes `onError`
only if `env.new_string(message)` succeeds; returns whether it fired. -/
def call_error_callback (d : CallbackData) (message : String) : Bool :=
  d.newStringOk message

/-- `call_java_callback` (callback.rs lines 14–37): attach the worker
thread to the JVM (silently dropping the delivery on failure), then on a
success result invoke `onSuccess` only if `env.new_string` succeeds, and on
an error result delegate to `call_error_callback`. -/
def call_java_callback (d : CallbackData)
    (result : Except JavaGlueSQLError String) : Fired :=
  if d.attachOk then
    match result with
    | Except.ok json =>
      if d.newStringOk json then
        { onSuccess := true, onError := false }
      else
        { onSuccess := false, onError := false }
    | Except.error e =>
      { onSuccess := false, onError := call_error_callback d e.message }
  else
    { onSuccess := false, onError := false }

/-- Recognizes a statement-execution event. -/
def isExec : Event → Bool
  | Event.exec _ => true
  | _ => false

/-- The four values of the enum declared in storages.rs, one per variant,
in declaration order (backend states instantiated at `Unit`). -/
def declAllVariants : List (JavaStorageEngineDecl Unit Unit Unit Unit) :=
  [JavaStorageEngineDecl.memory (), JavaStorageEngineDecl.json (),
   JavaStorageEngineDecl.sled (), JavaStorageEngineDecl.sharedMemory ()]

/-- Concrete collaborator instantiation for witnesses: two statements, the
Memory backend counts executions and fails on the second one. -/
def libTwoStatements : GlueLib Unit Unit Nat Unit Unit Unit Unit :=
  { parseFn := fun _ => Except.ok [(), ()]
  , translateFn := fun _ => Except.ok ()
  , execMemory := fun _ n =>
      (if n = 0 then Except.ok Payload.create else Except.error "boom", n + 1)
  , execJson := fun _ s => (Except.ok Payload.create, s)
  , execSled := fun _ s => (Except.ok Payload.create, s)
  , execSharedMemory := fun _ s => (Except.ok Payload.create, s)
  , execRedb := fun _ s => (Except.ok Payload.create, s) }

/-- Concrete collaborator instantiation for witnesses: two statements that
both succeed. -/
def libAllOk : GlueLib Unit Unit Nat Unit Unit Unit Unit :=
  { parseFn := fun _ => Except.ok [(), ()]
  , translateFn := fun _ => Except.ok ()
  , execMemory := fun _ n => (Except.ok (Payload.insert n), n + 1)
  , execJson := fun _ s => (Except.ok Payload.create, s)
  , execSled := fun _ s => (Except.ok Payload.create, s)
  , execSharedMemory := fun _ s => (Except.ok Payload.create, s)
  , execRedb := fun _ s => (Except.ok Payload.create, s) }

/-- Concrete collaborator instantiation for witnesses: every text parses to
zero statements. -/
def libEmpty : GlueLib Unit Unit Unit Unit Unit Unit Unit :=
  { parseFn := fun _ => Except.ok []
  , translateFn := fun _ => Except.ok ()
  , execMemory := fun _ s => (Except.ok Payload.create, s)
  , execJson := fun _ s => (Except.ok Payload.create, s)
  , execSled := fun _ s => (Except.ok Payload.create, s)
  , execSharedMemory := fun _ s => (Except.ok Payload.create, s)
  , execRedb := fun _ s => (Except.ok Payload.create, s) }

/-- Concrete collaborator instantiation: one statement that translates and
executes successfully but yields a `Select` payload holding a value the
serialized form cannot represent. -/
def libSelectPanic : GlueLib Unit Unit Unit Unit Unit Unit Unit :=
  { parseFn := fun _ => Except.ok [()]
  , translateFn := fun _ => Except.ok ()
  , execMemory := fun _ s =>
      (Except.ok (Payload.select ["a"] [[SqlValue.unrepresentable 0]]), s)
  , execJson := fun _ s => (Except.ok Payload.create, s)
  , execSled := fun _ s => (Except.ok Payload.create, s)
  , execSharedMemory := fun _ s => (Except.ok Payload.create, s)
  , execRedb := fun _ s => (Except.ok Payload.create, s) }

theorem payloadToJson_typeTag (p : Payload) (j : Json)
    (h : payloadToJson p = some j) : typeTag j = some (shapeTag p) := by
  cases p
  case select labels rows =>
    simp only [payloadToJson, Option.map_eq_some'] at h
    obtain ⟨rs, _, hj⟩ := h
    subst hj
    rfl
  all_goals
    simp only [payloadToJson] at h
    injection h with h
    subst h
    rfl

theorem convertResults_length (ps : List JavaPayload) (rs : List Json)
    (h : convertResults ps = some rs) : rs.length = ps.length := by
  induction ps generalizing rs with
  | nil =>
    simp only [convertResults, Option.some.injEq] at h
    subst h
    rfl
  | cons p rest ih =>
    simp only [convertResults] at h
    cases hp : payloadToJson p.payload with
    | none => rw [hp] at h; exact absurd h (by simp)
    | some j =>
      rw [hp] at h
      cases hr : convertResults rest with
      | none => rw [hr] at h; exact absurd h (by simp)
      | some js =>
        rw [hr] at h
        simp only [Option.map_some', Option.some.injEq] at h
        subst h
        simp [ih js hr]

theorem convertResults_get_tag (ps : List JavaPayload) (rs : List Json)
    (h : convertResults ps = some rs) :
    ∀ i (hp : i < ps.length) (hr : i < rs.length),
      typeTag (rs.get ⟨i, hr⟩) = some (shapeTag (ps.get ⟨i, hp⟩).payload) := by
  induction ps generalizing rs with
  | nil => intro i hp; exact absurd hp (by simp)
  | cons p rest ih =>
    simp only [convertResults] at h
    cases hj : payloadToJson p.payload with
    | none => rw [hj] at h; exact absurd h (by simp)
    | some j =>
      rw [hj] at h
      cases hr : convertResults rest with
      | none => rw [hr] at h; exact absurd h (by simp)
      | some js =>
        rw [hr] at h
        simp only [Option.map_some', Option.some.injEq] at h
        subst h
        intro i hp hrl
        cases i with
        | zero => exact payloadToJson_typeTag p.payload j hj
        | succ n =>
          simp only [List.get_cons_succ]
          exact ih js hr n (Nat.lt_of_succ_lt_succ hp) (Nat.lt_of_succ_lt_succ hrl)

theorem convertRow_isSome (labels : List String) (row : List SqlValue)
    (h : ((labels.zip row).all fun lv => (tryFromValue lv.2).isSome) = true) :
    (convertRow labels row).isSome = true := by
  induction labels generalizing row with
  | nil => simp [convertRow]
  | cons l ls ih =>
    cases row with
    | nil => simp [convertRow]
    | cons v vs =>
      simp only [List.zip_cons_cons, List.all_cons, Bool.and_eq_true] at h
      obtain ⟨hv, hrest⟩ := h
      cases hj : tryFromValue v with
      | none => rw [hj] at hv; simp at hv
      | some j =>
        have := ih vs hrest
        simp only [convertRow, hj]
        cases hr : convertRow ls vs with
        | none => rw [hr] at this; simp at this
        | some r => simp

theorem convertSelectRows_isSome (labels : List String) (rows : List (List SqlValue))
    (h : (rows.all fun row => (labels.zip row).all fun lv => (tryFromValue lv.2).isSome) = true) :
    (convertSelectRows labels rows).isSome = true := by
  induction rows with
  | nil => simp [convertSelectRows]
  | cons row rest ih =>
    simp only [List.all_cons, Bool.and_eq_true] at h
    obtain ⟨hrow, hrest⟩ := h
    have h1 := convertRow_isSome labels row hrow
    have h2 := ih hrest
    simp only [convertSelectRows]
    cases hr : convertRow labels row with
    | none => rw [hr] at h1; simp at h1
    | some r =>
      cases hs : convertSelectRows labels rest with
      | none => rw [hs] at h2; simp at h2
      | some js => simp

theorem payloadToJson_isSome (p : Payload) (h : payloadConvertible p = true) :
    (payloadToJson p).isSome = true := by
  cases p
  case select labels rows =>
    simp only [payloadConvertible] at h
    have := convertSelectRows_isSome labels rows h
    simp only [payloadToJson]
    cases hs : convertSelectRows labels rows with
    | none => rw [hs] at this; simp at this
    | some rs => simp
  all_goals simp [payloadToJson]

theorem convertResults_isSome (ps : List JavaPayload)
    (h : (ps.all fun jp => payloadConvertible jp.payload) = true) :
    (convertResults ps).isSome = true := by
  induction ps with
  | nil => simp [convertResults]
  | cons p rest ih =>
    simp only [List.all_cons, Bool.and_eq_true] at h
    obtain ⟨hp, hrest⟩ := h
    have h1 := payloadToJson_isSome p.payload hp
    have h2 := ih hrest
    simp only [convertResults]
    cases hj : payloadToJson p.payload with
    | none => rw [hj] at h1; simp at h1
    | some j =>
      cases hr : convertResults rest with
      | none => rw [hr] at h2; simp at h2
      | some js => simp

/-- Claim C1 counterexample.  The claim says `convert_payload` returns a
`SerializationError` for a payload holding an unrepresentable value and
"never diverges or aborts".  In fact the `Select` arm calls
`serde_json::Value::try_from(value).unwrap()` (payload.rs line 49), so the
projection panics — modelled by `none`: it neither returns `Ok` nor any
error value. -/
theorem convert_payload_unrepresentable_panics :
    convert_payload [⟨Payload.select ["a"] [[SqlValue.unrepresentable 0]]⟩] = none := by
  rfl

/-- Claim C1, amended: the Result Projector never substitutes a placeholder and
never returns a serialization error for a representable payload list: when
every value zipped into a `Select` row converts to the serialized form,
`convert_payload` returns `Ok`; when some value does not, it panics (see
the counterexample) instead of propagating a `SerializationError`. -/
theorem convert_payload_ok_of_convertible (ps : List JavaPayload)
    (h : (ps.all fun jp => payloadConvertible jp.payload) = true) :
    ∃ s, convert_payload ps = some (Except.ok s) := by
  have h1 := convertResults_isSome ps h
  simp only [convert_payload]
  cases hr : convertResults ps with
  | none => rw [hr] at h1; simp at h1
  | some rs => exact ⟨renderJson (Json.arr rs), rfl⟩

/-- Witness for the amended theorem of claim C1 at a concrete convertible payload list. -/
theorem convert_payload_ok_of_convertible_witness :
    ∃ s, convert_payload [⟨Payload.create⟩,
      ⟨Payload.select ["a"] [[SqlValue.representable (Json.num 1)]]⟩] =
        some (Except.ok s) :=
  convert_payload_ok_of_convertible
    [⟨Payload.create⟩, ⟨Payload.select ["a"] [[SqlValue.representable (Json.num 1)]]⟩]
    (by rfl)

/-- Claim C2 counterexample.  The claim says a `DropTable` payload is projected
to a record whose type tag is `"DropTable"`; the code (payload.rs lines
63–68) tags it `"Drop"`. -/
theorem dropTable_tag_is_Drop_not_DropTable :
    payloadToJson (Payload.dropTable 1) =
      some (Json.obj [("type", Json.str "Drop"), ("dropped_tables", Json.num 1)]) ∧
    typeTag (Json.obj [("type", Json.str "Drop"), ("dropped_tables", Json.num 1)]) =
      some "Drop" ∧
    "Drop" ≠ "DropTable" := by
  refine ⟨rfl, rfl, ?_⟩
  decide

/-- Claim C2, amended: every record produced by the Result Projector carries a
type tag from the fixed vocabulary {Create, Insert, Update, Delete, Select,
Drop, AlterTable, CreateIndex, DropIndex, ShowColumns, SelectMap,
DropFunction, ShowVariable, StartTransaction, Commit, Rollback}; the tag is
a function of the payload shape alone (the position of the shape in the
duplicate-free vocabulary), and a `DropTable` payload is tagged `"Drop"`,
not `"DropTable"`. -/
theorem payload_type_tags_fixed_vocabulary (p : Payload) (j : Json)
    (h : payloadToJson p = some j) :
    typeTag j = some (shapeTag p) ∧
    shapeTag p ∈ tagVocabulary ∧
    shapeTag p = tagVocabulary.getD (ctorIdx p) "" ∧
    tagVocabulary.Nodup ∧
    ∀ n, shapeTag (Payload.dropTable n) = "Drop" := by
  refine ⟨payloadToJson_typeTag p j h, ?_, ?_, ?_, fun _ => rfl⟩
  · cases p <;> simp [shapeTag, tagVocabulary]
  · cases p <;> rfl
  · decide

/-- Witness for the amended theorem of claim C2 at the concrete `DropTable` payload. -/
theorem payload_type_tags_fixed_vocabulary_witness :
    typeTag (Json.obj [("type", Json.str "Drop"), ("dropped_tables", Json.num 2)]) =
      some (shapeTag (Payload.dropTable 2)) ∧
    shapeTag (Payload.dropTable 2) ∈ tagVocabulary ∧
    shapeTag (Payload.dropTable 2) = tagVocabulary.getD (ctorIdx (Payload.dropTable 2)) "" ∧
    tagVocabulary.Nodup ∧
    ∀ n, shapeTag (Payload.dropTable n) = "Drop" :=
  payload_type_tags_fixed_vocabulary (Payload.dropTable 2)
    (Json.obj [("type", Json.str "Drop"), ("dropped_tables", Json.num 2)]) rfl

/-- Claim C5: the `Select` arm builds each row record by zipping the column
labels with the values of the row in label order — for a row as long as the
label list, the record pairs the i-th label with (the serialized form of)
the i-th value. -/
theorem convertRow_zips_labels_values (labels : List String) (row : List SqlValue)
    (hlen : row.length = labels.length)
    (hconv : ∀ v ∈ row, (tryFromValue v).isSome = true) :
    ∃ rec, convertRow labels row = some rec ∧
      rec.length = labels.length ∧
      ∀ i (hi : i < labels.length) (hr : i < row.length) (hc : i < rec.length),
        ∃ jv, tryFromValue (row.get ⟨i, hr⟩) = some jv ∧
          rec.get ⟨i, hc⟩ = (labels.get ⟨i, hi⟩, jv) := by
  induction labels generalizing row with
  | nil =>
    cases row with
    | nil => exact ⟨[], rfl, rfl, fun i hi => absurd hi (by simp)⟩
    | cons v vs => exact absurd hlen (by simp)
  | cons l ls ih =>
    cases row with
    | nil => exact absurd hlen (by simp)
    | cons v vs =>
      have hv : (tryFromValue v).isSome = true := hconv v (by simp)
      cases hj : tryFromValue v with
      | none => rw [hj] at hv; simp at hv
      | some j =>
        have hlen' : vs.length = ls.length := by
          simpa using hlen
        have hconv' : ∀ w ∈ vs, (tryFromValue w).isSome = true :=
          fun w hw => hconv w (by simp [hw])
        obtain ⟨rec', hrec', hlenr', hidx'⟩ := ih vs hlen' hconv'
        refine ⟨(l, j) :: rec', ?_, by simp [hlenr'], ?_⟩
        · simp [convertRow, hj, hrec']
        · intro i hi hr hc
          cases i with
          | zero => exact ⟨j, hj, rfl⟩
          | succ n =>
            simp only [List.get_cons_succ]
            exact hidx' n (Nat.lt_of_succ_lt_succ hi) (Nat.lt_of_succ_lt_succ hr)
              (Nat.lt_of_succ_lt_succ hc)

/-- Witness for C5 at a concrete two-column row. -/
theorem convertRow_zips_labels_values_witness :
    ∃ rec, convertRow ["a", "b"]
        [SqlValue.representable (Json.num 1), SqlValue.representable (Json.num 2)] = some rec ∧
      rec.length = (["a", "b"] : List String).length ∧
      ∀ i (hi : i < (["a", "b"] : List String).length)
        (hr : i < ([SqlValue.representable (Json.num 1),
                    SqlValue.representable (Json.num 2)] : List SqlValue).length)
        (hc : i < rec.length),
        ∃ jv, tryFromValue (([SqlValue.representable (Json.num 1),
            SqlValue.representable (Json.num 2)] : List SqlValue).get ⟨i, hr⟩) = some jv ∧
          rec.get ⟨i, hc⟩ = ((["a", "b"] : List String).get ⟨i, hi⟩, jv) :=
  convertRow_zips_labels_values ["a", "b"]
    [SqlValue.representable (Json.num 1), SqlValue.representable (Json.num 2)]
    rfl (by intro v hv; simp at hv; rcases hv with h | h <;> subst h <;> rfl)

theorem queryLoop_ok_inv {Q S Mem Jsn Sld Shm Rdb : Type}
    (lib : GlueLib Q S Mem Jsn Sld Shm Rdb) (qs : List Q) :
    ∀ (k : Nat) (g g' : JavaGlue Mem Jsn Sld Shm Rdb)
      (ps : List Payload) (tr : List Event),
      queryLoop lib k qs g = (some (Except.ok ps), g', tr) →
      tr = batchEvents k qs.length ∧ ps.length = qs.length := by
  induction qs with
  | nil =>
    intro k g g' ps tr h
    simp only [queryLoop, Prod.mk.injEq, Option.some.injEq, Except.ok.injEq] at h
    obtain ⟨h1, _, h3⟩ := h
    subst h1
    subst h3
    exact ⟨rfl, rfl⟩
  | cons q rest ih =>
    intro k g g' ps tr h
    simp only [queryLoop] at h
    cases ht : lib.translateFn q with
    | error e => rw [ht] at h; simp at h
    | ok stmt =>
      rw [ht] at h
      cases hpoi : g.poisoned with
      | true => rw [hpoi] at h; simp at h
      | false =>
        rw [hpoi] at h
        simp only [Bool.false_eq_true, if_false] at h
        rcases hq : queryLoop lib (k + 1) rest
            { storage := (dispatchExecute lib stmt g.storage).2, poisoned := false } with
          ⟨res, g2, tr2⟩
        cases hd : (dispatchExecute lib stmt g.storage).1 with
        | error e => rw [hd] at h; simp at h
        | ok p =>
          rw [hd, hq] at h
          cases res with
          | none => simp at h
          | some r =>
            cases r with
            | error e => simp at h
            | ok ps' =>
              simp only [Prod.mk.injEq, Option.some.injEq, Except.ok.injEq] at h
              obtain ⟨h1, _, h3⟩ := h
              obtain ⟨htr, hlen⟩ := ih (k + 1)
                { storage := (dispatchExecute lib stmt g.storage).2, poisoned := false }
                g2 ps' tr2 hq
              subst h1
              subst h3
              subst htr
              constructor
              · simp [batchEvents, stmtEvents]
              · simp [hlen]

theorem queryLoop_append {Q S Mem Jsn Sld Shm Rdb : Type}
    (lib : GlueLib Q S Mem Jsn Sld Shm Rdb) (qs1 : List Q) :
    ∀ (qs2 : List Q) (k : Nat) (g g1 : JavaGlue Mem Jsn Sld Shm Rdb)
      (ps1 : List Payload) (tr1 : List Event),
      queryLoop lib k qs1 g = (some (Except.ok ps1), g1, tr1) →
      queryLoop lib k (qs1 ++ qs2) g =
        ((match (queryLoop lib (k + qs1.length) qs2 g1).1 with
          | none => none
          | some (Except.error e) => some (Except.error e)
          | some (Except.ok ps2) => some (Except.ok (ps1 ++ ps2))),
         (queryLoop lib (k + qs1.length) qs2 g1).2.1,
         tr1 ++ (queryLoop lib (k + qs1.length) qs2 g1).2.2) := by
  induction qs1 with
  | nil =>
    intro qs2 k g g1 ps1 tr1 h
    simp only [queryLoop, Prod.mk.injEq, Option.some.injEq, Except.ok.injEq] at h
    obtain ⟨h1, h2, h3⟩ := h
    subst h1
    subst h2
    subst h3
    simp only [List.nil_append, List.length_nil, Nat.add_zero]
    rcases hq : queryLoop lib k qs2 g with ⟨res, g2, tr2⟩
    cases res with
    | none => rfl
    | some r => cases r with
      | error e => rfl
      | ok ps2 => rfl
  | cons q rest ih =>
    intro qs2 k g g1 ps1 tr1 h
    simp only [queryLoop] at h
    cases ht : lib.translateFn q with
    | error e => rw [ht] at h; simp at h
    | ok stmt =>
      rw [ht] at h
      cases hpoi : g.poisoned with
      | true => rw [hpoi] at h; simp at h
      | false =>
        rw [hpoi] at h
        simp only [Bool.false_eq_true, if_false] at h
        rcases hq : queryLoop lib (k + 1) rest
            { storage := (dispatchExecute lib stmt g.storage).2, poisoned := false } with
          ⟨res, g2, tr2⟩
        cases hd : (dispatchExecute lib stmt g.storage).1 with
        | error e => rw [hd] at h; simp at h
        | ok p =>
          rw [hd, hq] at h
          cases res with
          | none => simp at h
          | some r =>
            cases r with
            | error e => simp at h
            | ok tl =>
              simp only [Prod.mk.injEq, Option.some.injEq, Except.ok.injEq] at h
              obtain ⟨h1, h2, h3⟩ := h
              subst h1
              subst h2
              subst h3
              have step := ih qs2 (k + 1)
                { storage := (dispatchExecute lib stmt g.storage).2, poisoned := false }
                g2 tl tr2 hq
              have harith : k + 1 + rest.length = k + (rest.length + 1) := by omega
              rw [harith] at step
              simp only [List.cons_append, queryLoop, ht, hpoi, Bool.false_eq_true,
                if_false, hd, List.append_eq, step, List.length_cons]
              rcases queryLoop lib (k + (rest.length + 1)) qs2 g2 with ⟨res2, g3, tr3⟩
              cases res2 with
              | none => simp [List.append_assoc]
              | some r2 => cases r2 with
                | error e2 => simp [List.append_assoc]
                | ok ps2 => simp [List.append_assoc]

theorem lockCheck_append_serialize (tr : List Event) :
    ∀ d, lockCheck d tr = true → lockCheck d (tr ++ [Event.serialize]) = true := by
  induction tr with
  | nil =>
    intro d h
    simp only [lockCheck, beq_iff_eq] at h
    subst h
    simp [lockCheck]
  | cons e rest ih =>
    intro d h
    cases e <;>
      simp only [lockCheck, Bool.and_eq_true, beq_iff_eq] at h ⊢ <;>
      exact ⟨h.1, ih _ h.2⟩

theorem queryLoop_lockCheck {Q S Mem Jsn Sld Shm Rdb : Type}
    (lib : GlueLib Q S Mem Jsn Sld Shm Rdb) (qs : List Q) :
    ∀ (k : Nat) (g : JavaGlue Mem Jsn Sld Shm Rdb),
      lockCheck 0 (queryLoop lib k qs g).2.2 = true := by
  induction qs with
  | nil => intro k g; rfl
  | cons q rest ih =>
    intro k g
    simp only [queryLoop]
    cases ht : lib.translateFn q with
    | error e => rfl
    | ok stmt =>
      cases hpoi : g.poisoned with
      | true => rfl
      | false =>
        simp only [Bool.false_eq_true, if_false]
        cases hd : (dispatchExecute lib stmt g.storage).1 with
        | error e => rfl
        | ok p =>
          rcases hq : queryLoop lib (k + 1) rest
              { storage := (dispatchExecute lib stmt g.storage).2, poisoned := false } with
            ⟨res, g2, tr2⟩
          have := ih (k + 1)
            { storage := (dispatchExecute lib stmt g.storage).2, poisoned := false }
          rw [hq] at this
          cases res with
          | none => simpa [lockCheck] using this
          | some r => cases r <;> simpa [lockCheck] using this

theorem batchEvents_count_acquire (n : Nat) :
    ∀ k, (batchEvents k n).count Event.acquire = n := by
  induction n with
  | zero => intro k; rfl
  | succ m ih =>
    intro k
    simp [batchEvents, stmtEvents, List.count_append, List.count_cons, ih (k + 1)]

theorem batchEvents_count_release (n : Nat) :
    ∀ k, (batchEvents k n).count Event.release = n := by
  induction n with
  | zero => intro k; rfl
  | succ m ih =>
    intro k
    simp [batchEvents, stmtEvents, List.count_append, List.count_cons, ih (k + 1)]

theorem query_ok_inv {Q S Mem Jsn Sld Shm Rdb : Type}
    (lib : GlueLib Q S Mem Jsn Sld Shm Rdb) (g g2 : JavaGlue Mem Jsn Sld Shm Rdb)
    (sql : String) (qs : List Q) (s : String) (tr : List Event)
    (h1 : lib.parseFn sql = Except.ok qs)
    (h2 : query lib g sql = (some (Except.ok s), g2, tr)) :
    ∃ payloads rs,
      queryLoop lib 0 qs g =
        (some (Except.ok payloads), g2, batchEvents 0 qs.length) ∧
      convertResults (payloads.map JavaPayload.mk) = some rs ∧
      s = renderJson (Json.arr rs) ∧
      payloads.length = qs.length ∧
      rs.length = qs.length ∧
      tr = (Event.parse :: batchEvents 0 qs.length) ++ [Event.serialize] ∧
      ∀ i (hp : i < payloads.length) (hr : i < rs.length),
        typeTag (rs.get ⟨i, hr⟩) = some (shapeTag (payloads.get ⟨i, hp⟩)) := by
  simp only [query, h1] at h2
  rcases hrun : queryLoop lib 0 qs g with ⟨res, gr, tr2⟩
  rw [hrun] at h2
  cases res with
  | none => simp at h2
  | some r =>
    cases r with
    | error e => simp at h2
    | ok payloads =>
      dsimp only at h2
      cases hser : convert_payload (payloads.map JavaPayload.mk) with
      | none => rw [hser] at h2; simp at h2
      | some sr =>
        rw [hser] at h2
        cases sr with
        | error e => simp at h2
        | ok s2 =>
          simp only [Prod.mk.injEq, Option.some.injEq, Except.ok.injEq] at h2
          obtain ⟨hs, hg, htr⟩ := h2
          obtain ⟨htr2, hlen⟩ := queryLoop_ok_inv lib qs 0 g gr payloads tr2 hrun
          simp only [convert_payload] at hser
          cases hcr : convertResults (payloads.map JavaPayload.mk) with
          | none => rw [hcr] at hser; simp at hser
          | some rs =>
            rw [hcr] at hser
            simp only [Option.map_some', Option.some.injEq, to_string_pretty,
              Except.ok.injEq] at hser
            have hrs : rs.length = payloads.length := by
              have := convertResults_length (payloads.map JavaPayload.mk) rs hcr
              simpa using this
            refine ⟨payloads, rs, ?_, hcr, ?_, hlen, ?_, ?_, ?_⟩
            · rw [← htr2, ← hg]
            · rw [← hs, ← hser]
            · rw [hrs, hlen]
            · rw [← htr, htr2]
            · intro i hp hr
              have := convertResults_get_tag (payloads.map JavaPayload.mk) rs hcr i
                (by simpa using hp) hr
              simpa [List.get_eq_getElem] using this

theorem batchEvents_countP_isExec (n : Nat) :
    ∀ k, (batchEvents k n).countP isExec = n := by
  induction n with
  | zero => intro k; rfl
  | succ m ih =>
    intro k
    simp [batchEvents, stmtEvents, List.countP_append, List.countP_cons, isExec, ih (k + 1)]

/-- Claim C3 counterexample.  The claim says a failed acquisition of the
exclusive lock (a poisoned `RwLock`) is returned to the caller as a
`QueryError`.  In fact `JavaGlue::query` calls
`self.storage.write().unwrap()` (lib.rs line 60), so the call panics —
modelled by `none`: no `QueryError` (and no other value) is returned. -/
theorem query_poisoned_lock_panics_example :
    (query libTwoStatements
      { storage := JavaStorageEngine.memory 0, poisoned := true } "INSERT").1 = none := by
  rfl

/-- Claim C3, amended: when acquiring the exclusive `StorageEngine` lock
fails (the lock is poisoned), `query` panics via `unwrap` — the call aborts
instead of returning a `QueryError`; the failure is not silently ignored,
but no error value reaches the caller. -/
theorem query_poisoned_lock_panics {Q S Mem Jsn Sld Shm Rdb : Type}
    (lib : GlueLib Q S Mem Jsn Sld Shm Rdb) (g : JavaGlue Mem Jsn Sld Shm Rdb)
    (sql : String) (q : Q) (rest : List Q) (stmt : S)
    (h1 : lib.parseFn sql = Except.ok (q :: rest))
    (h2 : lib.translateFn q = Except.ok stmt)
    (h3 : g.poisoned = true) :
    (query lib g sql).1 = none := by
  simp [query, h1, queryLoop, h2, h3]

/-- Witness for the amended theorem of claim C3 at a concrete poisoned
instance. -/
theorem query_poisoned_lock_panics_witness :
    (query libTwoStatements
      { storage := JavaStorageEngine.memory 5, poisoned := true } "UPDATE").1 = none :=
  query_poisoned_lock_panics libTwoStatements
    { storage := JavaStorageEngine.memory 5, poisoned := true } "UPDATE" () [()] ()
    rfl rfl rfl

/-- Claim C4 counterexample.  The claim says that whenever all parsed
statements translate and execute successfully, `query` returns an array of
one record per statement.  With one statement that translates and executes
successfully but produces a `Select` payload holding an unrepresentable
value, `query` panics during serialization (result `none`) and returns
nothing at all. -/
theorem query_success_serialization_panic_example :
    libSelectPanic.parseFn "SELECT" = Except.ok [()] ∧
    libSelectPanic.translateFn () = Except.ok () ∧
    (libSelectPanic.execMemory () ()).1 =
      Except.ok (Payload.select ["a"] [[SqlValue.unrepresentable 0]]) ∧
    (query libSelectPanic
      { storage := JavaStorageEngine.memory (), poisoned := false } "SELECT").1 = none :=
  ⟨rfl, rfl, rfl, rfl⟩

/-- Claim C4, amended: whenever a text parses into N statements and the
call returns successfully (all statements translated and executed, and
every resulting payload serialized — if a payload fails to serialize the
call panics instead of returning), the returned serialized result is the
rendering of an array of exactly N tagged records, one per statement, in
source order, the i-th record carrying the type tag of the i-th statement
payload. -/
theorem query_success_array_length_tags {Q S Mem Jsn Sld Shm Rdb : Type}
    (lib : GlueLib Q S Mem Jsn Sld Shm Rdb) (g g2 : JavaGlue Mem Jsn Sld Shm Rdb)
    (sql : String) (qs : List Q) (s : String) (tr : List Event)
    (h1 : lib.parseFn sql = Except.ok qs)
    (h2 : query lib g sql = (some (Except.ok s), g2, tr)) :
    ∃ payloads rs,
      queryLoop lib 0 qs g = (some (Except.ok payloads), g2, batchEvents 0 qs.length) ∧
      convertResults (payloads.map JavaPayload.mk) = some rs ∧
      s = renderJson (Json.arr rs) ∧
      payloads.length = qs.length ∧
      rs.length = qs.length ∧
      ∀ i (hp : i < payloads.length) (hr : i < rs.length),
        typeTag (rs.get ⟨i, hr⟩) = some (shapeTag (payloads.get ⟨i, hp⟩)) := by
  obtain ⟨payloads, rs, hloop, hcr, hs, hlp, hlr, _, htag⟩ :=
    query_ok_inv lib g g2 sql qs s tr h1 h2
  exact ⟨payloads, rs, hloop, hcr, hs, hlp, hlr, htag⟩

/-- Witness for the amended theorem of claim C4: a two-statement batch that
executes and serializes successfully. -/
theorem query_success_array_length_tags_witness :
    ∃ payloads rs,
      queryLoop libAllOk 0 [(), ()]
          { storage := JavaStorageEngine.memory 0, poisoned := false } =
        (some (Except.ok payloads),
         { storage := JavaStorageEngine.memory 2, poisoned := false },
         batchEvents 0 ([(), ()] : List Unit).length) ∧
      convertResults (payloads.map JavaPayload.mk) = some rs ∧
      renderJson (Json.arr
          [Json.obj [("type", Json.str "Insert"), ("inserted_rows", Json.num 0)],
           Json.obj [("type", Json.str "Insert"), ("inserted_rows", Json.num 1)]]) =
        renderJson (Json.arr rs) ∧
      payloads.length = ([(), ()] : List Unit).length ∧
      rs.length = ([(), ()] : List Unit).length ∧
      ∀ i (hp : i < payloads.length) (hr : i < rs.length),
        typeTag (rs.get ⟨i, hr⟩) = some (shapeTag (payloads.get ⟨i, hp⟩)) :=
  query_success_array_length_tags libAllOk
    { storage := JavaStorageEngine.memory 0, poisoned := false }
    { storage := JavaStorageEngine.memory 2, poisoned := false }
    "INSERT" [(), ()]
    (renderJson (Json.arr
      [Json.obj [("type", Json.str "Insert"), ("inserted_rows", Json.num 0)],
       Json.obj [("type", Json.str "Insert"), ("inserted_rows", Json.num 1)]]))
    [Event.parse, Event.translate 0, Event.acquire, Event.exec 0, Event.release,
     Event.translate 1, Event.acquire, Event.exec 1, Event.release, Event.serialize]
    rfl rfl

/-- Claim C6: when statement k of a batch fails, `query` returns that
error immediately.  Three failure modes, matching the source: (a) the text
fails to parse — the parse error is returned and nothing executes, the
instance state is untouched; (b) statement k fails to translate — the
translation error is returned, the trace stops at `translate k`, and the
state reached by statements 0..k-1 is kept unchanged (no rollback); (c)
statement k fails to execute — the execution error is returned, the trace
stops at the events of statement k, and the final state is the
prefix-execution state modified only by statement k itself (no rollback of
statements 0..k-1). -/
theorem query_error_aborts_no_rollback {Q S Mem Jsn Sld Shm Rdb : Type}
    (lib : GlueLib Q S Mem Jsn Sld Shm Rdb) (g g1 : JavaGlue Mem Jsn Sld Shm Rdb)
    (sql : String) (pre : List Q) (q : Q) (rest : List Q)
    (ps1 : List Payload) (tr1 : List Event) (stmt : S) (msg : String)
    (err : JavaGlueSQLError) :
    (lib.parseFn sql = Except.error msg →
      query lib g sql = (some (Except.error (JavaGlueSQLError.mk msg)), g, [Event.parse])) ∧
    (lib.parseFn sql = Except.ok (pre ++ q :: rest) →
     queryLoop lib 0 pre g = (some (Except.ok ps1), g1, tr1) →
     lib.translateFn q = Except.error msg →
      query lib g sql = (some (Except.error (JavaGlueSQLError.mk msg)), g1,
        (Event.parse :: tr1) ++ [Event.translate pre.length])) ∧
    (lib.parseFn sql = Except.ok (pre ++ q :: rest) →
     queryLoop lib 0 pre g = (some (Except.ok ps1), g1, tr1) →
     lib.translateFn q = Except.ok stmt →
     g1.poisoned = false →
     (dispatchExecute lib stmt g1.storage).1 = Except.error err →
      query lib g sql = (some (Except.error err),
        { storage := (dispatchExecute lib stmt g1.storage).2, poisoned := false },
        (Event.parse :: tr1) ++ [Event.translate pre.length, Event.acquire,
          Event.exec pre.length, Event.release])) := by
  refine ⟨?_, ?_, ?_⟩
  · intro hp
    simp [query, hp]
  · intro hp hloop htrq
    have app := queryLoop_append lib pre (q :: rest) 0 g g1 ps1 tr1 hloop
    simp only [queryLoop, htrq, Nat.zero_add] at app
    simp [query, hp, app]
  · intro hp hloop htrq hpoi hd
    have app := queryLoop_append lib pre (q :: rest) 0 g g1 ps1 tr1 hloop
    simp only [queryLoop, htrq, hpoi, Bool.false_eq_true, if_false, hd,
      Nat.zero_add] at app
    simp [query, hp, app]

/-- Witness for claim C6 (execute-failure mode) at a concrete two-statement
batch: the first statement succeeds and mutates the Memory backend from 0
to 1, the second fails; the error comes back, the trace stops at statement
1, and the final state keeps the effect of statement 0 (plus the mutation
of the failing execution itself). -/
theorem query_error_aborts_no_rollback_witness :
    query libTwoStatements
        { storage := JavaStorageEngine.memory 0, poisoned := false } "X" =
      (some (Except.error (JavaGlueSQLError.mk "boom")),
       { storage := JavaStorageEngine.memory 2, poisoned := false },
       [Event.parse, Event.translate 0, Event.acquire, Event.exec 0, Event.release,
        Event.translate 1, Event.acquire, Event.exec 1, Event.release]) :=
  (query_error_aborts_no_rollback libTwoStatements
      { storage := JavaStorageEngine.memory 0, poisoned := false }
      { storage := JavaStorageEngine.memory 1, poisoned := false }
      "X" [()] () [] [Payload.create]
      [Event.translate 0, Event.acquire, Event.exec 0, Event.release]
      () "unused" (JavaGlueSQLError.mk "boom")).2.2
    rfl rfl rfl rfl rfl

/-- Claim C7 counterexample.  The claim says that whenever attaching to the
JVM succeeds, exactly one of `onSuccess`/`onError` fires.  In fact when
`env.new_string` fails on the success path (callback.rs line 22), the
delivery is silently dropped even though the attach succeeded: neither
entry point fires. -/
theorem callback_dropped_despite_attach_ok :
    CallbackData.attachOk { attachOk := true, newStringOk := fun _ => false } = true ∧
    call_java_callback { attachOk := true, newStringOk := fun _ => false }
        (Except.ok "result") = { onSuccess := false, onError := false } :=
  ⟨rfl, rfl⟩

/-- Claim C7, amended: per delivery, at most one of the two sink entry
points fires, and they never both fire; the delivery is silently dropped
(neither fires) not only when attaching the worker thread to the JVM
fails, but also when constructing the Java string for the result or the
error message fails; when attach and string construction both succeed,
exactly the entry point matching the outcome fires. -/
theorem callback_at_most_one_fires (d : CallbackData)
    (r : Except JavaGlueSQLError String) :
    (¬((call_java_callback d r).onSuccess = true ∧
       (call_java_callback d r).onError = true)) ∧
    (d.attachOk = false →
      call_java_callback d r = { onSuccess := false, onError := false }) ∧
    (∀ s, r = Except.ok s → d.attachOk = true → d.newStringOk s = true →
      call_java_callback d r = { onSuccess := true, onError := false }) ∧
    (∀ s, r = Except.ok s → d.attachOk = true → d.newStringOk s = false →
      call_java_callback d r = { onSuccess := false, onError := false }) ∧
    (∀ e, r = Except.error e → d.attachOk = true →
      call_java_callback d r =
        { onSuccess := false, onError := call_error_callback d e.message }) := by
  rcases d with ⟨att, nso⟩
  refine ⟨?_, ?_, ?_, ?_, ?_⟩
  · cases att with
    | false => simp [call_java_callback]
    | true =>
      cases r with
      | ok s =>
        cases hn : nso s <;> simp [call_java_callback, hn]
      | error e => simp [call_java_callback, call_error_callback]
  · intro hatt
    subst hatt
    simp [call_java_callback]
  · intro s hr hatt hn
    subst hr
    subst hatt
    dsimp only at hn
    simp [call_java_callback, hn]
  · intro s hr hatt hn
    subst hr
    subst hatt
    dsimp only at hn
    simp [call_java_callback, hn]
  · intro e hr hatt
    subst hr
    subst hatt
    simp [call_java_callback]

/-- Witness for the amended theorem of claim C7 at concrete deliveries. -/
theorem callback_at_most_one_fires_witness :
    call_java_callback { attachOk := true, newStringOk := fun _ => true }
        (Except.ok "payload") = { onSuccess := true, onError := false } ∧
    call_java_callback { attachOk := false, newStringOk := fun _ => true }
        (Except.ok "payload") = { onSuccess := false, onError := false } :=
  ⟨(callback_at_most_one_fires
      { attachOk := true, newStringOk := fun _ => true }
      (Except.ok "payload")).2.2.1 "payload" rfl rfl rfl,
   (callback_at_most_one_fires
      { attachOk := false, newStringOk := fun _ => true }
      (Except.ok "payload")).2.1 rfl⟩

/-- Claim C8: the locking discipline of `JavaGlue::query`.  First conjunct,
for every call (also failing or panicking ones): the trace satisfies
`lockCheck` — parsing, translation and serialization happen with the lock
free, every statement execution happens with the lock held, and the
exclusive lock is never re-acquired while held (so it is never held across
two statements: each translation, which precedes its statement, finds the
lock free).  Second conjunct, for every successful call on a text of N
statements: the lock is acquired exactly N times and released exactly N
times, and exactly N statement executions occur. -/
theorem query_lock_per_statement {Q S Mem Jsn Sld Shm Rdb : Type}
    (lib : GlueLib Q S Mem Jsn Sld Shm Rdb) :
    (∀ (g : JavaGlue Mem Jsn Sld Shm Rdb) (sql : String),
      lockDiscipline (query lib g sql).2.2 = true) ∧
    (∀ (g g2 : JavaGlue Mem Jsn Sld Shm Rdb) (sql : String) (qs : List Q)
      (s : String) (tr : List Event),
      lib.parseFn sql = Except.ok qs →
      query lib g sql = (some (Except.ok s), g2, tr) →
      tr.count Event.acquire = qs.length ∧
      tr.count Event.release = qs.length ∧
      tr.countP isExec = qs.length) := by
  constructor
  · intro g sql
    simp only [query, lockDiscipline]
    cases hp : lib.parseFn sql with
    | error e => rfl
    | ok qs =>
      have hlc := queryLoop_lockCheck lib qs 0 g
      rcases hrun : queryLoop lib 0 qs g with ⟨res, gr, tr2⟩
      rw [hrun] at hlc
      dsimp only
      rw [hrun]
      dsimp only at hlc ⊢
      cases res with
      | none => simpa [lockCheck] using hlc
      | some r =>
        cases r with
        | error e => simpa [lockCheck] using hlc
        | ok payloads =>
          have hser := lockCheck_append_serialize tr2 0 hlc
          simpa [lockCheck] using hser
  · intro g g2 sql qs s tr h1 h2
    obtain ⟨payloads, rs, _, _, _, _, _, htr, _⟩ :=
      query_ok_inv lib g g2 sql qs s tr h1 h2
    subst htr
    refine ⟨?_, ?_, ?_⟩
    · simp [List.count_append, List.count_cons, batchEvents_count_acquire]
    · simp [List.count_append, List.count_cons, batchEvents_count_release]
    · simp [List.countP_append, List.countP_cons, isExec, batchEvents_countP_isExec]

/-- Witness for claim C8 at a concrete successful two-statement batch. -/
theorem query_lock_per_statement_witness :
    lockDiscipline (query libAllOk
      { storage := JavaStorageEngine.memory 0, poisoned := false } "X").2.2 = true ∧
    ([Event.parse, Event.translate 0, Event.acquire, Event.exec 0, Event.release,
      Event.translate 1, Event.acquire, Event.exec 1, Event.release,
      Event.serialize].count Event.acquire = ([(), ()] : List Unit).length ∧
     [Event.parse, Event.translate 0, Event.acquire, Event.exec 0, Event.release,
      Event.translate 1, Event.acquire, Event.exec 1, Event.release,
      Event.serialize].count Event.release = ([(), ()] : List Unit).length ∧
     [Event.parse, Event.translate 0, Event.acquire, Event.exec 0, Event.release,
      Event.translate 1, Event.acquire, Event.exec 1, Event.release,
      Event.serialize].countP isExec = ([(), ()] : List Unit).length) :=
  ⟨(query_lock_per_statement libAllOk).1
      { storage := JavaStorageEngine.memory 0, poisoned := false } "X",
   (query_lock_per_statement libAllOk).2
      { storage := JavaStorageEngine.memory 0, poisoned := false }
      { storage := JavaStorageEngine.memory 2, poisoned := false }
      "X" [(), ()]
      (renderJson (Json.arr
        [Json.obj [("type", Json.str "Insert"), ("inserted_rows", Json.num 0)],
         Json.obj [("type", Json.str "Insert"), ("inserted_rows", Json.num 1)]]))
      [Event.parse, Event.translate 0, Event.acquire, Event.exec 0, Event.release,
       Event.translate 1, Event.acquire, Event.exec 1, Event.release,
       Event.serialize]
      rfl rfl⟩

/-- Claim C9: the storage-engine union is internally inconsistent in the
sources.  The enum declared in storages.rs (lines 74–79) has exactly four
variants — Memory, Json, Sled, SharedMemory — and no Redb variant, while
the dispatch match in `JavaGlue::query` (lib.rs lines 62–68) has five arms
including `JavaStorageEngine::Redb` (and lib.rs imports `JavaRedbStorage`
from storages, which storages.rs does not define).  The five-variant union
used by the Execution Core model does carry a Redb variant. -/
theorem storage_engine_variant_mismatch :
    declKindNames.length = 4 ∧
    declAllVariants.map declKindName = declKindNames ∧
    queryDispatchArms.length = 5 ∧
    queryDispatchArms = declKindNames ++ ["Redb"] ∧
    declKindNames.count "Redb" = 0 ∧
    engineKindName
      (JavaStorageEngine.redb () : JavaStorageEngine Unit Unit Unit Unit Unit) =
      "Redb" := by
  refine ⟨rfl, rfl, rfl, rfl, ?_, rfl⟩
  decide

/-- Claim C10: a text that parses into zero statements makes `query`
succeed with the serialization of the empty payload list — the rendering
of a JSON array with no records, namely the two-character text `[]` — and
leaves the instance state untouched. -/
theorem query_empty_statements_ok {Q S Mem Jsn Sld Shm Rdb : Type}
    (lib : GlueLib Q S Mem Jsn Sld Shm Rdb) (g : JavaGlue Mem Jsn Sld Shm Rdb)
    (sql : String) (h : lib.parseFn sql = Except.ok ([] : List Q)) :
    query lib g sql =
      (some (Except.ok (renderJson (Json.arr []))), g,
        [Event.parse, Event.serialize]) ∧
    renderJson (Json.arr []) = "[]" := by
  refine ⟨?_, rfl⟩
  simp [query, h, queryLoop, convert_payload, convertResults, to_string_pretty]

/-- Witness for claim C10 at a concrete empty parse. -/
theorem query_empty_statements_ok_witness :
    query libEmpty { storage := JavaStorageEngine.memory (), poisoned := false } "" =
      (some (Except.ok (renderJson (Json.arr []))),
       { storage := JavaStorageEngine.memory (), poisoned := false },
       [Event.parse, Event.serialize]) ∧
    renderJson (Json.arr []) = "[]" :=
  query_empty_statements_ok libEmpty
    { storage := JavaStorageEngine.memory (), poisoned := false } "" rfl

end GlueJava
